import Mathlib

/-!
# Shallow embedding of the `gbemu` GPU (src/src/gpu/mod.rs)

This file translates the pixel-processing unit of the repository into Lean:
the mode scheduler (`tick` and the four mode handlers), the pixel pipeline
(`Fetcher`, `BgFifo`, `fetcher_tick`, `bg_fifo_tick`), the colour resolver
(`get_rgb`, `get_rgb_cgb`, `color_correct`) and the bus arbiter
(`set_byte`, `get_byte`).

Machine integers are modelled as `Nat` with explicit `% 2^w` where the Rust
code can wrap (`u8` additions and shifts).  Byte memories (`Vec<u8>`) are
modelled as functions `Nat → Nat`; the framebuffer likewise.  The
`registers.rs` and `tiles.rs` modules of the repository are not present in
the sources; the register structures are reconstructed from their uses in
`mod.rs`, and the few helpers that live only in `registers.rs` are modelled
from the specification (each such definition says so in its doc comment).
-/

namespace Gbemu

/-- The four scheduler modes (enum `GpuMode` in mod.rs). -/
inductive GpuMode where
  | OamSearch
  | PixelTransfer
  | HBlank
  | VBlank
deriving DecidableEq, Repr

/-- `impl From<&GpuMode> for u8` in mod.rs: the 2-bit status encoding. -/
def GpuMode.toByte : GpuMode → Nat
  | .HBlank => 0
  | .VBlank => 1
  | .OamSearch => 2
  | .PixelTransfer => 3

/-- Fetcher micro-states (enum `FetcherState` in mod.rs). -/
inductive FetcherState where
  | Sleep (n : Nat)
  | ReadTileNumber
  | ReadTileDataLow
  | ReadTileDataHigh
  | Push (n : Nat)
deriving DecidableEq, Repr

/-- enum `FetchType` in mod.rs. -/
inductive FetchType where
  | Background
  | Window
deriving DecidableEq, Repr

/-- struct `Fetcher` in mod.rs. -/
structure Fetcher where
  state : FetcherState
  fetching : FetchType
  x : Nat
  tile_num : Nat
  low : Nat
  high : Nat
deriving Repr

/-- `Fetcher::new` in mod.rs. -/
def Fetcher.new : Fetcher :=
  { state := .Sleep 0, fetching := .Background, x := 0, tile_num := 0
    low := 0xFF, high := 0xFF }

/-- struct `BgFifo` in mod.rs: the pixel queue (`VecDeque<u8>` as a `List`,
front at the head), the output counter `x` and the discard counter `scx`. -/
structure BgFifo where
  q : List Nat
  x : Nat
  scx : Nat
deriving Repr

/-- `BgFifo::new` in mod.rs. -/
def BgFifo.new : BgFifo := { q := [], x := 0, scx := 0 }

/-- `BgFifo::size` in mod.rs. -/
def BgFifo.size (f : BgFifo) : Nat := f.q.length

/-- `BgFifo::allow_push` in mod.rs: `self.q.len() <= 8`. -/
def BgFifo.allow_push (f : BgFifo) : Bool := f.q.length ≤ 8

/-- The loop body of `BgFifo::push`: eight times, append
`(low >> 7) | ((high >> 7) << 1)` and shift both bitplane bytes left by one
(u8 shifts, hence the `% 256`). -/
def pushPixels : Nat → Nat → Nat → List Nat → List Nat
  | 0, _, _, q => q
  | n + 1, low, high, q =>
      pushPixels n ((low <<< 1) % 256) ((high <<< 1) % 256)
        (q ++ [(low >>> 7) ||| ((high >>> 7) <<< 1)])

/-- `BgFifo::push` in mod.rs. -/
def BgFifo.push (f : BgFifo) (low high : Nat) : BgFifo :=
  { f with q := pushPixels 8 low high f.q }

/-- `BgFifo::pop` in mod.rs: `pop_front().unwrap()`.  The Rust code panics on
an empty queue; every call site guards with `size() >= 8`, so the empty case
is unreachable there and is given the junk value `0` here. -/
def BgFifo.pop (f : BgFifo) : Nat × BgFifo :=
  match f.q with
  | [] => (0, f)
  | p :: rest => (p, { f with q := rest })

/-- struct `LcdControl` (from the absent registers.rs), fields as used by
mod.rs: each holds the already-masked bit of the control byte. -/
structure LcdControl where
  display_enable : Nat
  win_tilemap_sel : Nat
  win_display_enable : Nat
  bg_tiledata_sel : Nat
  bg_tilemap_sel : Nat
  obj_size : Nat
  obj_display_enable : Nat
  lcdc0 : Nat
deriving Repr

/-- Modelled from the spec: `LcdControl::display_enabled` lives in the absent
registers.rs; the spec's lockout rules key on "display is enabled", i.e. the
display-enable bit being set. -/
def LcdControl.display_enabled (l : LcdControl) : Bool := l.display_enable ≠ 0

/-- Modelled from the spec: `LcdControl::bg_tilemap` lives in the absent
registers.rs; it returns the configured background tilemap base address
selected by the tilemap-select bit (the two tilemap windows of the video
memory). -/
def LcdControl.bg_tilemap (l : LcdControl) : Nat :=
  if l.bg_tilemap_sel ≠ 0 then 0x9C00 else 0x9800

/-- Modelled from the spec: the control-byte read-back (`u8::from(&LcdControl)`
in the absent registers.rs) re-assembles the stored single-bit fields. -/
def LcdControl.toByte (l : LcdControl) : Nat :=
  l.display_enable ||| l.win_tilemap_sel ||| l.win_display_enable |||
    l.bg_tiledata_sel ||| l.bg_tilemap_sel ||| l.obj_size |||
    l.obj_display_enable ||| l.lcdc0

/-- struct `LcdPosition` (from the absent registers.rs), fields as used by
mod.rs. -/
structure LcdPosition where
  scroll_x : Nat
  scroll_y : Nat
  window_x : Nat
  window_y : Nat
  ly : Nat
  lyc : Nat
  lx : Nat
deriving Repr

/-- struct `LcdStatus` (from the absent registers.rs), fields as used by
mod.rs. -/
structure LcdStatus where
  mode : GpuMode
  coincident : Nat
  lyc_int : Nat
  oam_int : Nat
  vblank_int : Nat
  hblank_int : Nat
deriving Repr

/-- Modelled from the spec: the status-byte read-back (`u8::from(&LcdStatus)`
in the absent registers.rs) combines the interrupt-enable bits, the
coincidence flag and the 2-bit mode encoding. -/
def LcdStatus.toByte (s : LcdStatus) : Nat :=
  s.lyc_int ||| s.oam_int ||| s.vblank_int ||| s.hblank_int |||
    s.coincident ||| s.mode.toByte

/-- struct `MonochromePalette` (from the absent registers.rs), fields as used
by mod.rs. -/
structure MonochromePalette where
  bgp : Nat
  obp0 : Nat
  obp1 : Nat
deriving Repr

/-- struct `ColorPalette` (from the absent registers.rs), fields as used by
mod.rs: the enhanced-scheme palette index registers and their auto-increment
flags. -/
structure ColorPalette where
  bgp_idx : Nat
  bgp_auto_incr : Bool
  obp_idx : Nat
  obp_auto_incr : Bool
deriving Repr

/-- Modelled from the spec: `ColorPalette::bgp` (absent registers.rs)
re-assembles the background palette index register: the 6-bit index plus the
auto-increment bit. -/
def ColorPalette.bgpByte (c : ColorPalette) : Nat :=
  c.bgp_idx ||| (if c.bgp_auto_incr then 0x80 else 0)

/-- Modelled from the spec: `ColorPalette::obp` (absent registers.rs), as
`ColorPalette.bgpByte` for the object palette index register. -/
def ColorPalette.obpByte (c : ColorPalette) : Nat :=
  c.obp_idx ||| (if c.obp_auto_incr then 0x80 else 0)

/-- enum `EmulationMode` (from the absent cpu module), as used by mod.rs. -/
inductive EmulationMode where
  | Dmg
  | Cgb
deriving DecidableEq, Repr

/-- struct `Gpu` in mod.rs.  Byte memories are functions from index to byte;
`lcd` is the 160×144×4 framebuffer. -/
structure Gpu where
  lcd : Nat → Nat
  vram0 : Nat → Nat
  vram1 : Nat → Nat
  bgp_ram : Nat → Nat
  obp_ram : Nat → Nat
  oam : Nat → Nat
  cgbp : ColorPalette
  emu_mode : EmulationMode
  lcdc : LcdControl
  dmgp : MonochromePalette
  position : LcdPosition
  stat : LcdStatus
  clock : Nat
  request_vblank_int : Bool
  request_lcd_int : Bool
  vram_bank : Nat
  win_counter : Nat
  oam_dma_active : Bool
  bg_fifo : BgFifo
  fetcher : Fetcher
  borrowed_cycles : Nat

/-- `SCREEN_WIDTH` in mod.rs. -/
def SCREEN_WIDTH : Nat := 160

/-- `SCREEN_HEIGHT` in mod.rs. -/
def SCREEN_HEIGHT : Nat := 144

/-- `SCREEN_DEPTH` in mod.rs. -/
def SCREEN_DEPTH : Nat := 4

/-- `VRAM_OFFSET` in mod.rs. -/
def VRAM_OFFSET : Nat := 0x8000

/-- `OAM_OFFSET` in mod.rs. -/
def OAM_OFFSET : Nat := 0xFE00

/-- Point update of a byte memory (`mem[i] = v` on a `Vec<u8>`). -/
def writeMem (m : Nat → Nat) (i v : Nat) : Nat → Nat :=
  fun j => if j = i then v else m j

/-- `Gpu::request_lcd_interrupt` in mod.rs. -/
def Gpu.request_lcd_interrupt (g : Gpu) : Gpu :=
  { g with request_lcd_int := true }

/-- `Gpu::request_vblank_interrupt` in mod.rs. -/
def Gpu.request_vblank_interrupt (g : Gpu) : Gpu :=
  { g with request_vblank_int := true }

/-- `Gpu::check_coincidence` in mod.rs. -/
def Gpu.check_coincidence (g : Gpu) : Gpu :=
  if g.position.ly = g.position.lyc then
    let g := { g with stat := { g.stat with coincident := 0x04 } }
    if g.stat.lyc_int ≠ 0 then g.request_lcd_interrupt else g
  else g

/-- `Gpu::change_mode` in mod.rs. -/
def Gpu.change_mode (g : Gpu) (mode : GpuMode) : Gpu :=
  let g := { g with stat := { g.stat with mode := mode } }
  match g.stat.mode with
  | .OamSearch => if g.stat.oam_int ≠ 0 then g.request_lcd_interrupt else g
  | .HBlank => if g.stat.hblank_int ≠ 0 then g.request_lcd_interrupt else g
  | .VBlank => if g.stat.vblank_int ≠ 0 then g.request_lcd_interrupt else g
  | _ => g

/-- `Gpu::clear_screen` in mod.rs: every byte of the (fixed-length
160·144·4) framebuffer is set to 255. -/
def Gpu.clear_screen (g : Gpu) : Gpu :=
  { g with lcd := fun i =>
      if i < SCREEN_HEIGHT * SCREEN_WIDTH * SCREEN_DEPTH then 255 else g.lcd i }

/-- `Gpu::get_vram_byte` in mod.rs (the in-range arm; out-of-range addresses
panic in Rust and never occur at call sites). -/
def Gpu.get_vram_byte (g : Gpu) (addr bank : Nat) : Nat :=
  if bank = 0 then g.vram0 (addr - VRAM_OFFSET) else g.vram1 (addr - VRAM_OFFSET)

/-- `Gpu::set_vram_byte` in mod.rs (the in-range arm; out-of-range addresses
panic in Rust and never occur at call sites). -/
def Gpu.set_vram_byte (g : Gpu) (addr value bank : Nat) : Gpu :=
  if bank = 0 then { g with vram0 := writeMem g.vram0 (addr - VRAM_OFFSET) value }
  else { g with vram1 := writeMem g.vram1 (addr - VRAM_OFFSET) value }

/-- `Gpu::get_byte` in mod.rs: the memory-mapped read surface.  The Rust
`match` guards translate to conditionals; the final panicking arm (an
unrecognised address is a fatal integration fault) is modelled as the junk
value `0` and is outside every claim. -/
def Gpu.get_byte (g : Gpu) (addr : Nat) : Nat :=
  if 0x8000 ≤ addr ∧ addr ≤ 0x9FFF then
    if g.stat.mode = .PixelTransfer ∧ ¬ g.oam_dma_active then 0x00
    else g.get_vram_byte addr g.vram_bank
  else if 0xFE00 ≤ addr ∧ addr ≤ 0xFE9F then
    if (g.stat.mode = .OamSearch ∨ g.stat.mode = .PixelTransfer) ∧ ¬ g.oam_dma_active
    then 0x00
    else g.oam (addr - OAM_OFFSET)
  else if addr = 0xFF40 then g.lcdc.toByte
  else if addr = 0xFF41 then g.stat.toByte
  else if addr = 0xFF42 then g.position.scroll_y
  else if addr = 0xFF43 then g.position.scroll_x
  else if addr = 0xFF44 then g.position.ly
  else if addr = 0xFF45 then g.position.lyc
  else if addr = 0xFF46 then 0xFF
  else if addr = 0xFF47 then g.dmgp.bgp
  else if addr = 0xFF48 then g.dmgp.obp0
  else if addr = 0xFF49 then g.dmgp.obp1
  else if addr = 0xFF4A then g.position.window_y
  else if addr = 0xFF4B then g.position.window_x
  else if addr = 0xFF4F then 0xFE ||| g.vram_bank
  else if addr = 0xFF68 ∧ g.emu_mode = .Cgb then g.cgbp.bgpByte
  else if addr = 0xFF69 ∧ g.emu_mode = .Cgb then g.bgp_ram g.cgbp.bgp_idx
  else if addr = 0xFF6A ∧ g.emu_mode = .Cgb then g.cgbp.obpByte
  else if addr = 0xFF6B ∧ g.emu_mode = .Cgb then g.obp_ram g.cgbp.obp_idx
  else 0

/-- `Gpu::set_byte` in mod.rs: the memory-mapped write surface.  The Rust
`match` guards translate to conditionals; the final panicking arm (an
unrecognised address is a fatal integration fault) is modelled as leaving
the state unchanged and is outside every claim. -/
def Gpu.set_byte (g : Gpu) (addr value : Nat) : Gpu :=
  if 0x8000 ≤ addr ∧ addr ≤ 0x9FFF then
    if g.stat.mode = .PixelTransfer ∧ g.lcdc.display_enabled then g
    else g.set_vram_byte addr value g.vram_bank
  else if 0xFE00 ≤ addr ∧ addr ≤ 0xFE9F then
    if (g.stat.mode = .OamSearch ∨ g.stat.mode = .PixelTransfer) ∧ g.lcdc.display_enabled
    then g
    else { g with oam := writeMem g.oam (addr - OAM_OFFSET) value }
  else if addr = 0xFF40 then
    let old_display_enable := g.lcdc.display_enable
    let g := { g with lcdc := { g.lcdc with display_enable := value &&& 0x80 } }
    let g :=
      if old_display_enable ≠ 0 ∧ g.lcdc.display_enable = 0 then
        let g := g.change_mode .HBlank
        let g := { g with position := { g.position with ly := 0 }
                          win_counter := 0
                          clock := 0 }
        g.clear_screen
      else g
    { g with lcdc :=
        { g.lcdc with win_tilemap_sel := value &&& 0x40
                      win_display_enable := value &&& 0x20
                      bg_tiledata_sel := value &&& 0x10
                      bg_tilemap_sel := value &&& 0x08
                      obj_size := value &&& 0x04
                      obj_display_enable := value &&& 0x02
                      lcdc0 := value &&& 0x01 } }
  else if addr = 0xFF41 then
    { g with stat := { g.stat with lyc_int := value &&& 0x40
                                   oam_int := value &&& 0x20
                                   vblank_int := value &&& 0x10
                                   hblank_int := value &&& 0x08 } }
  else if addr = 0xFF42 then { g with position := { g.position with scroll_y := value } }
  else if addr = 0xFF43 then { g with position := { g.position with scroll_x := value } }
  else if addr = 0xFF44 then g
  else if addr = 0xFF45 then { g with position := { g.position with lyc := value } }
  else if addr = 0xFF47 then { g with dmgp := { g.dmgp with bgp := value } }
  else if addr = 0xFF48 then { g with dmgp := { g.dmgp with obp0 := value } }
  else if addr = 0xFF49 then { g with dmgp := { g.dmgp with obp1 := value } }
  else if addr = 0xFF4A then { g with position := { g.position with window_y := value } }
  else if addr = 0xFF4B then { g with position := { g.position with window_x := value } }
  else if addr = 0xFF4F then { g with vram_bank := value &&& 0x01 }
  else if addr = 0xFF68 then
    { g with cgbp := { g.cgbp with bgp_idx := value &&& 0x3F
                                   bgp_auto_incr := value &&& 0x80 ≠ 0 } }
  else if addr = 0xFF69 then
    let g :=
      if g.stat.mode ≠ .PixelTransfer then
        { g with bgp_ram := writeMem g.bgp_ram g.cgbp.bgp_idx value }
      else g
    if g.cgbp.bgp_auto_incr then
      { g with cgbp := { g.cgbp with bgp_idx := (g.cgbp.bgp_idx + 1) % 0x40 } }
    else g
  else if addr = 0xFF6A then
    { g with cgbp := { g.cgbp with obp_idx := value &&& 0x3F
                                   obp_auto_incr := value &&& 0x80 ≠ 0 } }
  else if addr = 0xFF6B then
    let g :=
      if g.stat.mode ≠ .PixelTransfer then
        { g with obp_ram := writeMem g.obp_ram g.cgbp.obp_idx value }
      else g
    if g.cgbp.obp_auto_incr then
      { g with cgbp := { g.cgbp with obp_idx := (g.cgbp.obp_idx + 1) % 0x40 } }
    else g
  else g

/-- `Gpu::update_screen_row` in mod.rs: four sequential byte stores into the
framebuffer at pixel `(x, ly)`. -/
def Gpu.update_screen_row (g : Gpu) (x r gr b : Nat) : Gpu :=
  let ly := g.position.ly
  let base := ly * SCREEN_WIDTH * SCREEN_DEPTH + x * SCREEN_DEPTH
  { g with lcd :=
      writeMem (writeMem (writeMem (writeMem g.lcd (base + 0) r)
        (base + 1) gr) (base + 2) b) (base + 3) 255 }

/-- `Gpu::get_rgb` in mod.rs: the fixed 4-shade monochrome lookup. -/
def Gpu.get_rgb (_g : Gpu) (value palette : Nat) : Nat × Nat × Nat :=
  match (palette >>> (2 * value)) &&& 0x03 with
  | 0 => (224, 247, 208)
  | 1 => (136, 192, 112)
  | 2 => (52, 104, 86)
  | _ => (8, 23, 33)

/-- `Gpu::color_correct` in mod.rs: 5-to-8-bit channel expansion
`(c << 3) | (c >> 2)`, truncated to a byte (`as u8`). -/
def Gpu.color_correct (_g : Gpu) (r gr b : Nat) : Nat × Nat × Nat :=
  (((r <<< 3) ||| (r >>> 2)) % 256,
   ((gr <<< 3) ||| (gr >>> 2)) % 256,
   ((b <<< 3) ||| (b >>> 2)) % 256)

/-- `Gpu::get_rgb_cgb` in mod.rs: unpack a little-endian 15-bit colour from
the selected palette memory and expand each 5-bit channel. -/
def Gpu.get_rgb_cgb (g : Gpu) (color_num palette_num : Nat) (obp : Bool) :
    Nat × Nat × Nat :=
  let palette_idx := palette_num * 8
  let color_idx := palette_idx + color_num * 2
  let palette :=
    if obp then ((g.obp_ram (color_idx + 1)) <<< 8) ||| g.obp_ram (color_idx + 0)
    else ((g.bgp_ram (color_idx + 1)) <<< 8) ||| g.bgp_ram (color_idx + 0)
  g.color_correct ((palette &&& 0x001F) >>> 0) ((palette &&& 0x03E0) >>> 5)
    ((palette &&& 0x7C00) >>> 10)

/-- `Gpu::tiledata_addr` in mod.rs: tile-data addressing.  In mode 0 the
Rust code reinterprets the byte index as `i8`, adds 128 and scales; for a
byte `idx` that is `idx + 128` below 128 and `idx - 128` from 128 up. -/
def Gpu.tiledata_addr (_g : Gpu) (sel idx : Nat) : Nat :=
  if sel = 0 then
    0x8800 + (if idx < 128 then idx + 128 else idx - 128) * 16
  else
    0x8000 + idx * 16

/-- `Gpu::bg_fifo_tick` in mod.rs: no-op while fewer than 8 pixels are
buffered; otherwise honour the discard counter first (incrementing
`borrowed_cycles`), else pop one pixel, resolve it through the monochrome
palette, write it to the framebuffer at the pixel cursor and advance the
cursor (a u8 increment). -/
def Gpu.bg_fifo_tick (g : Gpu) : Gpu :=
  if g.bg_fifo.size < 8 then g
  else if g.bg_fifo.scx > 0 then
    let (_, f) := g.bg_fifo.pop
    { g with bg_fifo := { f with scx := f.scx - 1 }
             borrowed_cycles := g.borrowed_cycles + 1 }
  else
    let (value, f) := g.bg_fifo.pop
    let g := { g with bg_fifo := f }
    let rgb := g.get_rgb value g.dmgp.bgp
    let g := g.update_screen_row g.position.lx rgb.1 rgb.2.1 rgb.2.2
    { g with position := { g.position with lx := (g.position.lx + 1) % 256 } }

/-- `Gpu::fetcher_tick` in mod.rs: one step of the eight-phase fetcher
micro-machine (u8 arithmetic on positions, hence the wraps). -/
def Gpu.fetcher_tick (g : Gpu) : Gpu :=
  match g.fetcher.state with
  | .Sleep 0 => { g with fetcher := { g.fetcher with state := .ReadTileNumber } }
  | .ReadTileNumber =>
      let g :=
        match g.fetcher.fetching with
        | .Background =>
            let base := g.lcdc.bg_tilemap
            let row := ((g.position.ly + g.position.scroll_y) % 256) / 8
            let col := (g.position.scroll_x / 8 + g.fetcher.x) % 32
            { g with fetcher :=
                { g.fetcher with tile_num := g.get_byte (base + row * 32 + col) } }
        | .Window => g
      { g with fetcher := { g.fetcher with state := .Sleep 1 } }
  | .Sleep 1 => { g with fetcher := { g.fetcher with state := .ReadTileDataLow } }
  | .ReadTileDataLow =>
      let row := ((g.position.ly + g.position.scroll_y) % 256) % 8
      let tile_addr := g.tiledata_addr g.lcdc.bg_tiledata_sel g.fetcher.tile_num
      { g with fetcher :=
          { g.fetcher with low := g.get_byte (tile_addr + row * 2)
                           state := .Sleep 2 } }
  | .Sleep 2 => { g with fetcher := { g.fetcher with state := .ReadTileDataHigh } }
  | .ReadTileDataHigh =>
      let row := ((g.position.ly + g.position.scroll_y) % 256) % 8
      let tile_addr := g.tiledata_addr g.lcdc.bg_tiledata_sel g.fetcher.tile_num
      { g with fetcher :=
          { g.fetcher with high := g.get_byte (tile_addr + row * 2 + 1)
                           state := .Push 0 } }
  | .Push 0 =>
      { g with fetcher :=
          { g.fetcher with x := (g.fetcher.x + 1) % 32, state := .Push 1 } }
  | .Push 1 =>
      if g.bg_fifo.allow_push then
        { g with bg_fifo := g.bg_fifo.push g.fetcher.low g.fetcher.high
                 fetcher := { g.fetcher with state := .Sleep 0 } }
      else g
  | _ => g

/-- `Gpu::oam_search_tick` in mod.rs. -/
def Gpu.oam_search_tick (g : Gpu) (cycles : Nat) : Gpu × Nat :=
  if g.clock + cycles ≥ 80 then
    let cycles_left := g.clock + cycles - 80
    (({ g with clock := 0 }).change_mode .PixelTransfer, cycles_left)
  else
    ({ g with clock := g.clock + cycles }, 0)

/-- The `while cycles > 0 && lx < SCREEN_WIDTH` loop inside
`Gpu::pixel_transfer_tick`: each iteration runs one fetcher step, then one
FIFO step, and spends one cycle. -/
def Gpu.transferLoop : Gpu → Nat → Gpu × Nat
  | g, 0 => (g, 0)
  | g, c + 1 =>
      if g.position.lx < SCREEN_WIDTH then
        (g.fetcher_tick.bg_fifo_tick).transferLoop c
      else
        (g, c + 1)

/-- `Gpu::pixel_transfer_tick` in mod.rs: drive the pipeline until the cycle
budget or the line is exhausted, then enter HBlank once 160 pixels are out. -/
def Gpu.pixel_transfer_tick (g : Gpu) (cycles : Nat) : Gpu × Nat :=
  let gc := g.transferLoop cycles
  if SCREEN_WIDTH ≤ gc.1.position.lx then (gc.1.change_mode .HBlank, gc.2)
  else gc

/-- `Gpu::hblank_tick` in mod.rs: a line's HBlank lasts
`204 - borrowed_cycles`; on completion increment the line (u8 increment),
check coincidence, and enter VBlank (raising its latch) past line 143, else
Search. -/
def Gpu.hblank_tick (g : Gpu) (cycles : Nat) : Gpu × Nat :=
  if g.clock + cycles ≥ 204 - g.borrowed_cycles then
    let cycles_left := g.clock + cycles - (204 - g.borrowed_cycles)
    let g := { g with clock := 0
                      position := { g.position with ly := (g.position.ly + 1) % 256 } }
    let g := g.check_coincidence
    let g :=
      if g.position.ly > 143 then (g.change_mode .VBlank).request_vblank_interrupt
      else g.change_mode .OamSearch
    (g, cycles_left)
  else
    ({ g with clock := g.clock + cycles }, 0)

/-- `Gpu::vblank_tick` in mod.rs: each 456-cycle period increments the line
(u8 increment); on reaching 153 the line is reset to 0 and coincidence is
checked there; when the already-reset line would advance to 1 it snaps back
to 0 and the mode returns to Search. -/
def Gpu.vblank_tick (g : Gpu) (cycles : Nat) : Gpu × Nat :=
  if g.clock + cycles ≥ 456 then
    let cycles_left := g.clock + cycles - 456
    let g := { g with clock := 0
                      position := { g.position with ly := (g.position.ly + 1) % 256 } }
    let g :=
      if g.position.ly = 153 then
        ({ g with position := { g.position with ly := 0 } }).check_coincidence
      else g
    let g :=
      if g.position.ly = 1 then
        ({ g with position := { g.position with ly := 0 } }).change_mode .OamSearch
      else g
    (g, cycles_left)
  else
    ({ g with clock := g.clock + cycles }, 0)

/-- The dispatch inside `Gpu::tick`'s loop body: run the handler of the
current mode on the remaining budget. -/
def Gpu.tickStep (g : Gpu) (cycles : Nat) : Gpu × Nat :=
  match g.stat.mode with
  | .OamSearch => g.oam_search_tick cycles
  | .PixelTransfer => g.pixel_transfer_tick cycles
  | .HBlank => g.hblank_tick cycles
  | .VBlank => g.vblank_tick cycles

/-- The `while cycles > 0` loop of `Gpu::tick`, with explicit fuel bounding
the number of dispatches (the Rust loop is unbounded; `tickLoop_consumes`
below shows `2·cycles + 2` dispatches always finish the budget, so the
fuelled loop coincides with the Rust loop). -/
def Gpu.tickLoop : Gpu → Nat → Nat → Gpu × Nat
  | g, c, 0 => (g, c)
  | g, c, fuel + 1 =>
      if c = 0 then (g, c)
      else
        let gc := g.tickStep c
        gc.1.tickLoop gc.2 fuel

/-- The per-dispatch cycle charges of `Gpu.tickLoop`: the list of amounts of
budget each mode-handler call consumed. -/
def Gpu.tickTrace : Gpu → Nat → Nat → List Nat
  | _, _, 0 => []
  | g, c, fuel + 1 =>
      if c = 0 then []
      else
        let gc := g.tickStep c
        (c - gc.2) :: gc.1.tickTrace gc.2 fuel

/-- `Gpu::tick` in mod.rs: a no-op with the display disabled, else the
dispatch loop until the budget is spent. -/
def Gpu.tick (g : Gpu) (cycles : Nat) : Gpu :=
  if g.lcdc.display_enable = 0 then g
  else (g.tickLoop cycles (2 * cycles + 2)).1

/-- A concrete line-start state used to exercise the machine: display
enabled, mode Search with a fresh line budget, line 0, all memories zero,
and the pixel pipeline exactly as `Gpu::new` leaves it (empty FIFO,
discard counter 0, fetcher asleep, no borrowed cycles); the horizontal
scroll register holds `scrollX`. -/
def lineStart (scrollX : Nat) : Gpu :=
  { lcd := fun _ => 0
    vram0 := fun _ => 0
    vram1 := fun _ => 0
    bgp_ram := fun _ => 0
    obp_ram := fun _ => 0
    oam := fun _ => 0
    cgbp := { bgp_idx := 0, bgp_auto_incr := false, obp_idx := 0, obp_auto_incr := false }
    emu_mode := .Dmg
    lcdc := { display_enable := 0x80, win_tilemap_sel := 0, win_display_enable := 0
              bg_tiledata_sel := 0, bg_tilemap_sel := 0, obj_size := 0
              obj_display_enable := 0, lcdc0 := 0 }
    dmgp := { bgp := 0, obp0 := 0, obp1 := 0 }
    position := { scroll_x := scrollX, scroll_y := 0, window_x := 0, window_y := 0
                  ly := 0, lyc := 0, lx := 0 }
    stat := { mode := .OamSearch, coincident := 0, lyc_int := 0, oam_int := 0
              vblank_int := 0, hblank_int := 0 }
    clock := 0
    request_vblank_int := false
    request_lcd_int := false
    vram_bank := 0
    win_counter := 0
    oam_dma_active := false
    bg_fifo := BgFifo.new
    fetcher := Fetcher.new
    borrowed_cycles := 0 }

/-- The scheduler's clock invariant: the per-mode cycle counter is below the
current mode's threshold (Transfer keeps it at 0, having been zeroed on
entry), and the borrowed-cycle total plus the pending discard count stay
below HBlank's nominal length.  It holds at power-on and is preserved by
every dispatch; it is what makes `Gpu::tick`'s loop consume its budget. -/
def Inv (g : Gpu) : Prop :=
  g.borrowed_cycles + g.bg_fifo.scx < 204 ∧
  (g.stat.mode = .OamSearch → g.clock < 80) ∧
  (g.stat.mode = .PixelTransfer → g.clock = 0) ∧
  (g.stat.mode = .HBlank → g.clock + g.borrowed_cycles < 204) ∧
  (g.stat.mode = .VBlank → g.clock < 456)

instance (g : Gpu) : Decidable (Inv g) := by
  unfold Inv; infer_instance

/-- A concrete VBlank state: line 149 just finishing, compare target 150,
coincidence interrupt enabled, no pending status request. -/
def vblankState : Gpu :=
  { lineStart 0 with
    stat := { mode := .VBlank, coincident := 0, lyc_int := 0x40, oam_int := 0
              vblank_int := 0, hblank_int := 0 }
    position := { (lineStart 0).position with ly := 149, lyc := 150 } }

/-- A concrete state whose FIFO holds exactly 8 pixels with no pending
discard, pixel cursor at 5. -/
def fifo8State : Gpu :=
  { lineStart 0 with
    bg_fifo := { q := [0, 0, 0, 0, 0, 0, 0, 0], x := 0, scx := 0 }
    position := { (lineStart 0).position with lx := 5 } }

/-- A concrete HBlank-mode state with zeroed memories. -/
def hblankState : Gpu :=
  { lineStart 0 with stat := { (lineStart 0).stat with mode := .HBlank } }

/-- A concrete Transfer-mode state with both enhanced-palette auto-increment
flags on, background palette index 63 and object palette index 5. -/
def transferPalState : Gpu :=
  { lineStart 0 with
    stat := { (lineStart 0).stat with mode := .PixelTransfer }
    cgbp := { bgp_idx := 63, bgp_auto_incr := true, obp_idx := 5, obp_auto_incr := true } }

/-- The machine after the 80-cycle Search phase of a line begun at
`lineStart sx`. -/
def afterSearch (sx : Nat) : Gpu := (lineStart sx).tick 80

/-- The machine 174 cycles into the Transfer phase of that line (174 cycles
is exactly when the pixel cursor reaches 160 over zero-filled memories). -/
def afterTransfer (sx : Nat) : Gpu := (afterSearch sx).tick 174

/-- The machine after a further 204 cycles of HBlank: the full line. -/
def afterLine (sx : Nat) : Gpu := (afterTransfer sx).tick 204

/-- A concrete HBlank state at the end of line 99 with compare target 100
and the coincidence interrupt enabled. -/
def hblankCmpState : Gpu :=
  { lineStart 0 with
    stat := { mode := .HBlank, coincident := 0, lyc_int := 0x40, oam_int := 0
              vblank_int := 0, hblank_int := 0 }
    position := { (lineStart 0).position with ly := 99, lyc := 100 } }

/-! ## Field-preservation lemmas for the scheduler proofs -/

theorem change_mode_fields (g : Gpu) (m : GpuMode) :
    (g.change_mode m).clock = g.clock ∧ (g.change_mode m).stat.mode = m ∧
    (g.change_mode m).borrowed_cycles = g.borrowed_cycles ∧
    (g.change_mode m).bg_fifo = g.bg_fifo ∧
    (g.change_mode m).position = g.position := by
  cases m <;>
    · simp only [Gpu.change_mode, Gpu.request_lcd_interrupt]
      first
      | (split <;> simp)
      | simp

theorem check_coincidence_fields (g : Gpu) :
    g.check_coincidence.clock = g.clock ∧
    g.check_coincidence.stat.mode = g.stat.mode ∧
    g.check_coincidence.borrowed_cycles = g.borrowed_cycles ∧
    g.check_coincidence.bg_fifo = g.bg_fifo ∧
    g.check_coincidence.position = g.position := by
  simp only [Gpu.check_coincidence, Gpu.request_lcd_interrupt]
  split
  · split <;> simp
  · simp

theorem request_vblank_fields (g : Gpu) :
    g.request_vblank_interrupt.clock = g.clock ∧
    g.request_vblank_interrupt.stat.mode = g.stat.mode ∧
    g.request_vblank_interrupt.borrowed_cycles = g.borrowed_cycles ∧
    g.request_vblank_interrupt.bg_fifo = g.bg_fifo ∧
    g.request_vblank_interrupt.position = g.position := by
  simp [Gpu.request_vblank_interrupt]

theorem fetcher_tick_fields (g : Gpu) :
    g.fetcher_tick.clock = g.clock ∧
    g.fetcher_tick.stat.mode = g.stat.mode ∧
    g.fetcher_tick.borrowed_cycles = g.borrowed_cycles ∧
    g.fetcher_tick.bg_fifo.scx = g.bg_fifo.scx ∧
    g.fetcher_tick.position = g.position := by
  unfold Gpu.fetcher_tick
  split <;>
    first
    | (split <;> simp [BgFifo.push])
    | simp [BgFifo.push]

theorem pop_scx (f : BgFifo) : f.pop.2.scx = f.scx := by
  unfold BgFifo.pop
  split <;> simp

theorem update_screen_row_fields (g : Gpu) (x r gr b : Nat) :
    (g.update_screen_row x r gr b).clock = g.clock ∧
    (g.update_screen_row x r gr b).stat.mode = g.stat.mode ∧
    (g.update_screen_row x r gr b).borrowed_cycles = g.borrowed_cycles ∧
    (g.update_screen_row x r gr b).bg_fifo = g.bg_fifo ∧
    (g.update_screen_row x r gr b).position = g.position := by
  simp [Gpu.update_screen_row]

theorem bg_fifo_tick_fields (g : Gpu) :
    g.bg_fifo_tick.clock = g.clock ∧
    g.bg_fifo_tick.stat.mode = g.stat.mode ∧
    g.bg_fifo_tick.borrowed_cycles + g.bg_fifo_tick.bg_fifo.scx
      = g.borrowed_cycles + g.bg_fifo.scx := by
  unfold Gpu.bg_fifo_tick
  split
  · simp
  · split
    · rcases hq : g.bg_fifo.q with _ | ⟨p, rest⟩ <;>
        · simp only [BgFifo.pop, hq]
          simp
          omega
    · have h1 := update_screen_row_fields
        { g with bg_fifo := g.bg_fifo.pop.2 } g.position.lx
        (({ g with bg_fifo := g.bg_fifo.pop.2 }).get_rgb g.bg_fifo.pop.1 g.dmgp.bgp).1
        (({ g with bg_fifo := g.bg_fifo.pop.2 }).get_rgb g.bg_fifo.pop.1 g.dmgp.bgp).2.1
        (({ g with bg_fifo := g.bg_fifo.pop.2 }).get_rgb g.bg_fifo.pop.1 g.dmgp.bgp).2.2
      rcases hq : g.bg_fifo.q with _ | ⟨p, rest⟩ <;>
        · simp only [BgFifo.pop, hq] at h1 ⊢
          simp [Gpu.update_screen_row]

theorem transferLoop_fields (c : Nat) : ∀ g : Gpu,
    (g.transferLoop c).1.clock = g.clock ∧
    (g.transferLoop c).1.stat.mode = g.stat.mode ∧
    (g.transferLoop c).1.borrowed_cycles + (g.transferLoop c).1.bg_fifo.scx
      = g.borrowed_cycles + g.bg_fifo.scx ∧
    (g.transferLoop c).2 ≤ c := by
  induction c with
  | zero => intro g; simp [Gpu.transferLoop]
  | succ n ih =>
    intro g
    rw [Gpu.transferLoop]
    split
    · have hf := fetcher_tick_fields g
      have hb := bg_fifo_tick_fields g.fetcher_tick
      have hrec := ih g.fetcher_tick.bg_fifo_tick
      refine ⟨?_, ?_, ?_, ?_⟩
      · omega
      · rw [hrec.2.1, hb.2.1, hf.2.1]
      · omega
      · omega
    · simp

theorem transferLoop_progress (c : Nat) (g : Gpu)
    (hlx : g.position.lx < SCREEN_WIDTH) (hc : 0 < c) :
    (g.transferLoop c).2 < c := by
  match c with
  | n + 1 =>
    rw [Gpu.transferLoop]
    rw [if_pos hlx]
    have := (transferLoop_fields n g.fetcher_tick.bg_fifo_tick).2.2.2
    omega

theorem transferLoop_stuck (c : Nat) (g : Gpu)
    (hlx : SCREEN_WIDTH ≤ g.position.lx) : g.transferLoop c = (g, c) := by
  match c with
  | 0 => rfl
  | n + 1 =>
    rw [Gpu.transferLoop]
    rw [if_neg (by omega)]

/-- One dispatch of the scheduler preserves the clock invariant, never
returns more budget than it was given, and makes progress: it either
consumes at least one cycle or performs the (cycle-free) Transfer→HBlank
hand-off. -/
theorem tickStep_spec (g : Gpu) (c : Nat) (hInv : Inv g) (hc : 0 < c) :
    Inv (g.tickStep c).1 ∧ (g.tickStep c).2 ≤ c ∧
    ((g.tickStep c).2 < c ∨
      (g.stat.mode = .PixelTransfer ∧ (g.tickStep c).1.stat.mode = .HBlank ∧
        (g.tickStep c).2 = c)) := by
  obtain ⟨hbs, ho, hp, hh, hv⟩ := hInv
  rcases hm : g.stat.mode with _ | _ | _ | _
  · -- OamSearch
    have hck := ho hm
    simp only [Gpu.tickStep, hm, Gpu.oam_search_tick]
    split
    · have hcm := change_mode_fields { g with clock := 0 } GpuMode.PixelTransfer
      refine ⟨⟨?_, ?_, ?_, ?_, ?_⟩, by omega, by left; omega⟩
      · have h1 := hcm.2.2.2.1
        have h2 := hcm.2.2.1
        simp only [h1, h2]
        simpa using hbs
      · intro h; rw [hcm.2.1] at h; exact absurd h (by simp)
      · intro _; simpa using hcm.1
      · intro h; rw [hcm.2.1] at h; exact absurd h (by simp)
      · intro h; rw [hcm.2.1] at h; exact absurd h (by simp)
    · refine ⟨⟨by simpa using hbs, ?_, ?_, ?_, ?_⟩, by omega, by left; omega⟩
      · intro _; simp; omega
      · intro h; simp at h; rw [h] at hm; exact absurd hm (by simp)
      · intro h; simp at h; rw [h] at hm; exact absurd hm (by simp)
      · intro h; simp at h; rw [h] at hm; exact absurd hm (by simp)
  · -- PixelTransfer
    have hck := hp hm
    simp only [Gpu.tickStep, hm, Gpu.pixel_transfer_tick]
    have htf := transferLoop_fields c g
    split
    · -- the line is complete: enter HBlank
      dsimp only
      have hcm := change_mode_fields (g.transferLoop c).1 GpuMode.HBlank
      refine ⟨⟨?_, ?_, ?_, ?_, ?_⟩, htf.2.2.2, ?_⟩
      · have h1 := hcm.2.2.2.1
        have h2 := hcm.2.2.1
        rw [h2, h1]
        omega
      · intro h; rw [hcm.2.1] at h; exact absurd h (by simp)
      · intro h; rw [hcm.2.1] at h; exact absurd h (by simp)
      · intro _; rw [hcm.1, htf.1, hck]
        have h1 := hcm.2.2.2.1
        have h2 := hcm.2.2.1
        omega
      · intro h; rw [hcm.2.1] at h; exact absurd h (by simp)
      · by_cases hlx : g.position.lx < SCREEN_WIDTH
        · left; exact transferLoop_progress c g hlx hc
        · right
          exact ⟨trivial, hcm.2.1, by rw [transferLoop_stuck c g (by omega)]⟩
    · -- budget exhausted mid-line: stay in Transfer
      rename_i hlx'
      refine ⟨⟨by omega, ?_, ?_, ?_, ?_⟩, htf.2.2.2, ?_⟩
      · intro h; rw [htf.2.1, hm] at h; exact absurd h (by simp)
      · intro _; rw [htf.1, hck]
      · intro h; rw [htf.2.1, hm] at h; exact absurd h (by simp)
      · intro h; rw [htf.2.1, hm] at h; exact absurd h (by simp)
      · left
        by_cases hlx : g.position.lx < SCREEN_WIDTH
        · exact transferLoop_progress c g hlx hc
        · exfalso
          rw [transferLoop_stuck c g (by omega)] at hlx'
          dsimp only at hlx'
          exact hlx' (by omega)
  · -- HBlank
    have hck := hh hm
    simp only [Gpu.tickStep, hm, Gpu.hblank_tick]
    split
    · dsimp only
      set g1 : Gpu :=
        { g with clock := 0
                 position := { g.position with ly := (g.position.ly + 1) % 256 } }
        with hg1
      have hcc := check_coincidence_fields g1
      split
      · -- past line 143: enter VBlank
        have hcm := change_mode_fields g1.check_coincidence GpuMode.VBlank
        have hrv := request_vblank_fields (g1.check_coincidence.change_mode .VBlank)
        refine ⟨⟨?_, ?_, ?_, ?_, ?_⟩, by omega, by left; omega⟩
        · have e1 : (g1.check_coincidence.change_mode
              GpuMode.VBlank).request_vblank_interrupt.borrowed_cycles
              = g.borrowed_cycles := by
            rw [hrv.2.2.1, hcm.2.2.1, hcc.2.2.1]
            try simp [hg1]
          have e2 : (g1.check_coincidence.change_mode
              GpuMode.VBlank).request_vblank_interrupt.bg_fifo.scx
              = g.bg_fifo.scx := by
            rw [hrv.2.2.2.1, hcm.2.2.2.1, hcc.2.2.2.1]
            try simp [hg1]
          omega
        · intro h; rw [hrv.2.1, hcm.2.1] at h; exact absurd h (by simp)
        · intro h; rw [hrv.2.1, hcm.2.1] at h; exact absurd h (by simp)
        · intro h; rw [hrv.2.1, hcm.2.1] at h; exact absurd h (by simp)
        · intro _
          rw [hrv.1, hcm.1, hcc.1]
          simp [hg1]
      · -- back to Search
        have hcm := change_mode_fields g1.check_coincidence GpuMode.OamSearch
        refine ⟨⟨?_, ?_, ?_, ?_, ?_⟩, by omega, by left; omega⟩
        · have e1 : (g1.check_coincidence.change_mode GpuMode.OamSearch).borrowed_cycles
              = g.borrowed_cycles := by
            rw [hcm.2.2.1, hcc.2.2.1]
            try simp [hg1]
          have e2 : (g1.check_coincidence.change_mode GpuMode.OamSearch).bg_fifo.scx
              = g.bg_fifo.scx := by
            rw [hcm.2.2.2.1, hcc.2.2.2.1]
            try simp [hg1]
          omega
        · intro _
          rw [hcm.1, hcc.1]
          simp [hg1]
        · intro h; rw [hcm.2.1] at h; exact absurd h (by simp)
        · intro h; rw [hcm.2.1] at h; exact absurd h (by simp)
        · intro h; rw [hcm.2.1] at h; exact absurd h (by simp)
    · refine ⟨⟨by simpa using hbs, ?_, ?_, ?_, ?_⟩, by omega, by left; omega⟩
      · intro h; simp at h; rw [h] at hm; exact absurd hm (by simp)
      · intro h; simp at h; rw [h] at hm; exact absurd hm (by simp)
      · intro _; simp; omega
      · intro h; simp at h; rw [h] at hm; exact absurd hm (by simp)
  · -- VBlank
    have hck := hv hm
    simp only [Gpu.tickStep, hm, Gpu.vblank_tick]
    split
    · dsimp only
      set g1 : Gpu :=
        { g with clock := 0
                 position := { g.position with ly := (g.position.ly + 1) % 256 } }
        with hg1
      set g2 : Gpu :=
        if g1.position.ly = 153 then
          ({ g1 with position := { g1.position with ly := 0 } }).check_coincidence
        else g1
        with hg2
      have hf2 : g2.clock = 0 ∧ g2.stat.mode = GpuMode.VBlank ∧
          g2.borrowed_cycles + g2.bg_fifo.scx = g.borrowed_cycles + g.bg_fifo.scx := by
        rw [hg2]
        split
        · have hcf := check_coincidence_fields
            { g1 with position := { g1.position with ly := 0 } }
          refine ⟨?_, ?_, ?_⟩
          · rw [hcf.1]
            try simp [hg1]
          · rw [hcf.2.1]
            try simp [hg1, hm]
          · rw [hcf.2.2.1, hcf.2.2.2.1]
            try simp [hg1]
        · refine ⟨?_, ?_, ?_⟩
          · try simp [hg1]
          · try simp [hg1, hm]
          · try simp [hg1]
      split
      · -- snap back to line 0 and return to Search
        have hcm := change_mode_fields { g2 with position := { g2.position with ly := 0 } }
          GpuMode.OamSearch
        refine ⟨⟨?_, ?_, ?_, ?_, ?_⟩, by omega, by left; omega⟩
        · have := hcm.2.2.2.1
          simp only [this, hcm.2.2.1]
          omega
        · intro _
          rw [hcm.1]
          simp [hf2.1]
        · intro h; rw [hcm.2.1] at h; exact absurd h (by simp)
        · intro h; rw [hcm.2.1] at h; exact absurd h (by simp)
        · intro h; rw [hcm.2.1] at h; exact absurd h (by simp)
      · refine ⟨⟨by omega, ?_, ?_, ?_, ?_⟩, by omega, by left; omega⟩
        · intro h; rw [hf2.2.1] at h; exact absurd h (by simp)
        · intro h; rw [hf2.2.1] at h; exact absurd h (by simp)
        · intro h; rw [hf2.2.1] at h; exact absurd h (by simp)
        · intro _; rw [hf2.1]; omega
    · refine ⟨⟨by simpa using hbs, ?_, ?_, ?_, ?_⟩, by omega, by left; omega⟩
      · intro h; simp at h; rw [h] at hm; exact absurd hm (by simp)
      · intro h; simp at h; rw [h] at hm; exact absurd hm (by simp)
      · intro h; simp at h; rw [h] at hm; exact absurd hm (by simp)
      · intro _; simp; omega

theorem tickLoop_zero (g : Gpu) (fuel : Nat) : g.tickLoop 0 fuel = (g, 0) := by
  cases fuel <;> simp [Gpu.tickLoop]

/-- Once enough fuel makes the dispatch loop finish its budget, more fuel
does not change that. -/
theorem tickLoop_zero_mono (fuel : Nat) : ∀ (fuel' : Nat) (g : Gpu) (c : Nat),
    fuel ≤ fuel' → (g.tickLoop c fuel).2 = 0 → (g.tickLoop c fuel').2 = 0 := by
  induction fuel with
  | zero =>
    intro fuel' g c _ h0
    have hc : c = 0 := by simpa [Gpu.tickLoop] using h0
    rw [hc, tickLoop_zero]
  | succ n ih =>
    intro fuel' g c hle h0
    match fuel' with
    | fuel'' + 1 =>
      rw [Gpu.tickLoop] at h0 ⊢
      by_cases hc : c = 0
      · simp [hc]
      · rw [if_neg hc] at h0 ⊢
        dsimp only at h0 ⊢
        exact ih fuel'' _ _ (by omega) h0

/-- With fuel `2·c + 2`, the dispatch loop of `Gpu::tick` always finishes
its whole budget `c` (so the unbounded Rust loop terminates and consumes
everything). -/
theorem tickLoop_consumes (c : Nat) : ∀ g : Gpu, Inv g →
    (g.tickLoop c (2 * c + 2)).2 = 0 := by
  induction c using Nat.strong_induction_on with
  | _ c ih =>
    intro g hInv
    match c with
    | 0 => exact congrArg Prod.snd (tickLoop_zero g _)
    | c + 1 =>
      rw [Gpu.tickLoop, if_neg (by omega)]
      dsimp only
      have hs := tickStep_spec g (c + 1) hInv (by omega)
      rcases hs.2.2 with hlt | ⟨_, hmode, heq⟩
      · have h0 := ih (g.tickStep (c + 1)).2 (by omega) (g.tickStep (c + 1)).1 hs.1
        exact tickLoop_zero_mono _ _ _ _ (by omega) h0
      · rw [heq]
        rw [Gpu.tickLoop, if_neg (by omega)]
        dsimp only
        have hs2 := tickStep_spec (g.tickStep (c + 1)).1 (c + 1) hs.1 (by omega)
        rcases hs2.2.2 with hlt2 | ⟨hmode2, _, _⟩
        · have h0 := ih ((g.tickStep (c + 1)).1.tickStep (c + 1)).2 (by omega)
            ((g.tickStep (c + 1)).1.tickStep (c + 1)).1 hs2.1
          exact tickLoop_zero_mono _ _ _ _ (by omega) h0
        · rw [hmode] at hmode2
          exact absurd hmode2 (by simp)

/-- The per-dispatch charges always account for exactly the part of the
budget the loop has consumed. -/
theorem tickTrace_sum (fuel : Nat) : ∀ (g : Gpu) (c : Nat), Inv g →
    (g.tickTrace c fuel).sum + (g.tickLoop c fuel).2 = c := by
  induction fuel with
  | zero => intro g c _; simp [Gpu.tickTrace, Gpu.tickLoop]
  | succ n ih =>
    intro g c hInv
    rw [Gpu.tickTrace, Gpu.tickLoop]
    by_cases hc : c = 0
    · simp [hc]
    · rw [if_neg hc, if_neg hc]
      dsimp only
      have hs := tickStep_spec g c hInv (by omega)
      have := ih (g.tickStep c).1 (g.tickStep c).2 hs.1
      simp only [List.sum_cons]
      omega

/-! ## Claim theorems -/

/-- C2: for every non-negative cycle budget, `tick(cycle_budget)` terminates
and consumes the entire budget across zero or more mode transitions — the
per-dispatch charges sum to exactly the budget, none lost or duplicated —
and with the display disabled the call is a no-op leaving the state
unchanged.  (The hypothesis is the scheduler's clock invariant, which holds
at power-on and is preserved by every dispatch, per `tickStep_spec`.) -/
theorem tick_consumes_full_budget (g : Gpu) (c : Nat) (hInv : Inv g) :
    (g.tickLoop c (2 * c + 2)).2 = 0 ∧
    (g.tickTrace c (2 * c + 2)).sum = c ∧
    (g.lcdc.display_enable = 0 → g.tick c = g) ∧
    (g.lcdc.display_enable ≠ 0 → g.tick c = (g.tickLoop c (2 * c + 2)).1) := by
  have h0 := tickLoop_consumes c g hInv
  have hsum := tickTrace_sum (2 * c + 2) g c hInv
  refine ⟨h0, by omega, ?_, ?_⟩
  · intro h
    simp [Gpu.tick, h]
  · intro h
    simp [Gpu.tick, h]

/-- Witness for C2 at a concrete state and budget. -/
theorem tick_consumes_full_budget_witness :
    Inv (lineStart 3) ∧
    ((lineStart 3).tickLoop 500 1002).2 = 0 ∧
    ((lineStart 3).tickTrace 500 1002).sum = 500 :=
  ⟨by decide,
    (tick_consumes_full_budget (lineStart 3) 500 (by decide)).1,
    (tick_consumes_full_budget (lineStart 3) 500 (by decide)).2.1⟩

/-- C9: in the enhanced colour scheme every 5-bit channel value `c` expands
to `(c << 3) | (c >> 2)` (the `as u8` truncation in the source never bites
for 5-bit inputs), and in particular 0 ↦ 0, 31 ↦ 255, 16 ↦ 132. -/
theorem color_correct_expansion (g : Gpu) (r gr b : Nat)
    (hr : r < 32) (hg : gr < 32) (hb : b < 32) :
    g.color_correct r gr b =
      ((r <<< 3) ||| (r >>> 2), (gr <<< 3) ||| (gr >>> 2), (b <<< 3) ||| (b >>> 2)) ∧
    g.color_correct 0 0 0 = (0, 0, 0) ∧
    g.color_correct 31 31 31 = (255, 255, 255) ∧
    g.color_correct 16 16 16 = (132, 132, 132) := by
  have key : ∀ c : Nat, c < 32 →
      ((c <<< 3) ||| (c >>> 2)) % 256 = (c <<< 3) ||| (c >>> 2) := by
    intro c hcb
    apply Nat.mod_eq_of_lt
    have h1 : c <<< 3 < 2 ^ 8 := by
      rw [Nat.shiftLeft_eq]
      norm_num
      omega
    have h2 : c >>> 2 < 2 ^ 8 := by
      rw [Nat.shiftRight_eq_div_pow]
      norm_num
      omega
    have h3 := Nat.or_lt_two_pow h1 h2
    norm_num at h3
    exact h3
  refine ⟨?_, rfl, rfl, rfl⟩
  unfold Gpu.color_correct
  rw [key r hr, key gr hg, key b hb]

/-- Witness for C9 at channel value 16. -/
theorem color_correct_expansion_witness :
    (16 : Nat) < 32 ∧ (lineStart 0).color_correct 16 16 16 = (132, 132, 132) :=
  ⟨by decide,
    (color_correct_expansion (lineStart 0) 16 16 16 (by decide) (by decide)
      (by decide)).2.2.2⟩

/-- C10: a write to an enhanced-palette data register (0xFF69 or 0xFF6B)
during Transfer with auto-increment on leaves the palette memory unchanged
but still advances the corresponding index register by 1 mod 64. -/
theorem palette_write_rejected_index_advances (g : Gpu) (v : Nat)
    (hm : g.stat.mode = GpuMode.PixelTransfer)
    (hb : g.cgbp.bgp_auto_incr = true) (ho : g.cgbp.obp_auto_incr = true) :
    ((g.set_byte 0xFF69 v).bgp_ram = g.bgp_ram ∧
      (g.set_byte 0xFF69 v).cgbp.bgp_idx = (g.cgbp.bgp_idx + 1) % 64) ∧
    ((g.set_byte 0xFF6B v).obp_ram = g.obp_ram ∧
      (g.set_byte 0xFF6B v).cgbp.obp_idx = (g.cgbp.obp_idx + 1) % 64) := by
  constructor <;>
    · constructor <;> simp [Gpu.set_byte, hm, hb, ho]

/-- Witness for C10 at a concrete Transfer-mode state (index 63 wraps to 0). -/
theorem palette_write_rejected_index_advances_witness :
    transferPalState.stat.mode = GpuMode.PixelTransfer ∧
    (transferPalState.set_byte 0xFF69 9).bgp_ram = transferPalState.bgp_ram ∧
    (transferPalState.set_byte 0xFF69 9).cgbp.bgp_idx = (63 + 1) % 64 :=
  ⟨rfl,
    (palette_write_rejected_index_advances transferPalState 9 rfl rfl rfl).1.1,
    (palette_write_rejected_index_advances transferPalState 9 rfl rfl rfl).1.2⟩

/-- C8 (refuted as stated — the code's FIFO step guard is `size < 8`, so a
FIFO holding exactly 8 pixels is popped, not left alone, contradicting the
claim and the comment in mod.rs "pauses unless it contains more than 8
pixels"): at occupancy exactly 8 the FIFO step pops one pixel and advances
the pixel cursor, while the fetcher's commit predicate `allow_push` does
accept occupancy 8. -/
theorem fifo_pops_at_exactly_eight :
    fifo8State.bg_fifo.size = 8 ∧
    fifo8State.bg_fifo.scx = 0 ∧
    fifo8State.bg_fifo_tick.bg_fifo.size = 7 ∧
    fifo8State.bg_fifo_tick.position.lx = 6 ∧
    fifo8State.bg_fifo.allow_push = true := by
  decide

/-- C6: for every video-memory address (0x8000–0x9FFF): a write during
Transfer with the display enabled leaves the state unchanged; the same
write during HBlank is stored and read back; a read during Transfer
returns 0x00 unless the DMA-active flag is set, in which case the stored
byte is returned. -/
theorem vram_mode_lockout (g : Gpu) (addr v : Nat)
    (h1 : 0x8000 ≤ addr) (h2 : addr ≤ 0x9FFF) :
    (g.stat.mode = GpuMode.PixelTransfer → g.lcdc.display_enabled = true →
      g.set_byte addr v = g) ∧
    (g.stat.mode = GpuMode.HBlank → (g.set_byte addr v).get_byte addr = v) ∧
    (g.stat.mode = GpuMode.PixelTransfer → g.oam_dma_active = false →
      g.get_byte addr = 0x00) ∧
    (g.stat.mode = GpuMode.PixelTransfer → g.oam_dma_active = true →
      g.get_byte addr = g.get_vram_byte addr g.vram_bank) := by
  refine ⟨?_, ?_, ?_, ?_⟩
  · intro hm hd
    simp [Gpu.set_byte, h1, h2, hm, hd]
  · intro hm
    have hset : g.set_byte addr v = g.set_vram_byte addr v g.vram_bank := by
      simp [Gpu.set_byte, h1, h2, hm]
    rw [hset]
    unfold Gpu.set_vram_byte
    split <;>
      · rename_i hbank
        simp [Gpu.get_byte, h1, h2, hm, Gpu.get_vram_byte, hbank, writeMem]
  · intro hm hdma
    simp [Gpu.get_byte, h1, h2, hm, hdma]
  · intro hm hdma
    simp [Gpu.get_byte, h1, h2, hm, hdma]

/-- Witness for C6: a byte written at 0x8000 during HBlank reads back. -/
theorem vram_mode_lockout_witness :
    (0x8000 : Nat) ≤ 0x8000 ∧ (0x8000 : Nat) ≤ 0x9FFF ∧
    hblankState.stat.mode = GpuMode.HBlank ∧
    (hblankState.set_byte 0x8000 7).get_byte 0x8000 = 7 :=
  ⟨by decide, by decide, rfl,
    (vram_mode_lockout hblankState 0x8000 7 (by decide) (by decide)).2.1 rfl⟩

/-- C7: writing the control byte so that display-enable toggles from on to
off resets the line counter to 0, forces HBlank mode, and fills every byte
of the 160×144×4 framebuffer with 255. -/
theorem display_disable_resets (g : Gpu) (v : Nat)
    (hon : g.lcdc.display_enable ≠ 0) (hoff : v &&& 0x80 = 0) :
    (g.set_byte 0xFF40 v).position.ly = 0 ∧
    (g.set_byte 0xFF40 v).stat.mode = GpuMode.HBlank ∧
    ∀ i < SCREEN_HEIGHT * SCREEN_WIDTH * SCREEN_DEPTH,
      (g.set_byte 0xFF40 v).lcd i = 255 := by
  unfold Gpu.set_byte
  rw [if_neg (by norm_num), if_neg (by norm_num), if_pos rfl]
  dsimp only
  rw [if_pos ⟨hon, hoff⟩]
  refine ⟨?_, ?_, ?_⟩
  · simp [Gpu.clear_screen]
  · simp only [Gpu.clear_screen]
    exact (change_mode_fields _ GpuMode.HBlank).2.1
  · intro i hi
    simp [Gpu.clear_screen, hi]

/-- Witness for C7: the toggle applied to a concrete enabled state. -/
theorem display_disable_resets_witness :
    (lineStart 0).lcdc.display_enable ≠ 0 ∧ (0 : Nat) &&& 0x80 = 0 ∧
    ((lineStart 0).set_byte 0xFF40 0).position.ly = 0 ∧
    ((lineStart 0).set_byte 0xFF40 0).stat.mode = GpuMode.HBlank ∧
    ((lineStart 0).set_byte 0xFF40 0).lcd 92159 = 255 :=
  ⟨by decide, by decide,
    (display_disable_resets (lineStart 0) 0 (by decide) (by decide)).1,
    (display_disable_resets (lineStart 0) 0 (by decide) (by decide)).2.1,
    (display_disable_resets (lineStart 0) 0 (by decide) (by decide)).2.2 92159
      (by norm_num [SCREEN_WIDTH, SCREEN_HEIGHT, SCREEN_DEPTH])⟩

/-- Behaviour of `Gpu::check_coincidence`: when the current line equals the
compare target, the coincidence flag is set and (if enabled) the status
interrupt is requested; otherwise nothing changes. -/
theorem check_coincidence_spec (g : Gpu) :
    (g.position.ly = g.position.lyc →
      g.check_coincidence.stat.coincident = 0x04 ∧
      (g.stat.lyc_int ≠ 0 → g.check_coincidence.request_lcd_int = true) ∧
      (g.stat.lyc_int = 0 → g.check_coincidence.request_lcd_int = g.request_lcd_int)) ∧
    (g.position.ly ≠ g.position.lyc → g.check_coincidence = g) := by
  unfold Gpu.check_coincidence Gpu.request_lcd_interrupt
  constructor
  · intro h
    rw [if_pos h]
    dsimp only
    by_cases hint : g.stat.lyc_int = 0
    · rw [if_neg (by simp [hint])]
      exact ⟨rfl, fun hne => absurd hint hne, fun _ => rfl⟩
    · rw [if_pos (by simp [hint])]
      exact ⟨rfl, fun _ => rfl, fun h0 => absurd h0 hint⟩
  · intro h
    rw [if_neg h]

/-- C4: during VBlank (per-period clock fresh), a full 456-cycle period on
lines 144–151 increments the line counter by one and stays in VBlank; on
line 152 the counter reaches 153 and is immediately reset to 0, with the
coincidence check performed against the reset value 0 (it fires exactly
when the compare target is 0, never against 153), still in VBlank; one
456-cycle period later the (already-reset) counter, about to advance to 1,
snaps back to 0 and the mode returns to Search — so the counter cycles
through 0..153 and wraps to 0. -/
theorem vblank_line_counter_quirk (g : Gpu)
    (hvb : g.stat.mode = GpuMode.VBlank) (hc : g.clock = 0) :
    (144 ≤ g.position.ly ∧ g.position.ly ≤ 151 →
      (g.vblank_tick 456).1.position.ly = g.position.ly + 1 ∧
      (g.vblank_tick 456).1.stat.mode = GpuMode.VBlank ∧
      (g.vblank_tick 456).2 = 0) ∧
    (g.position.ly = 152 →
      (g.vblank_tick 456).1.position.ly = 0 ∧
      (g.vblank_tick 456).1.stat.mode = GpuMode.VBlank ∧
      (g.position.lyc = 0 → (g.vblank_tick 456).1.stat.coincident = 0x04) ∧
      (g.position.lyc = 0 → g.stat.lyc_int ≠ 0 →
        (g.vblank_tick 456).1.request_lcd_int = true) ∧
      (g.position.lyc ≠ 0 →
        (g.vblank_tick 456).1.request_lcd_int = g.request_lcd_int ∧
        (g.vblank_tick 456).1.stat.coincident = g.stat.coincident)) ∧
    (g.position.ly = 0 →
      (g.vblank_tick 456).1.position.ly = 0 ∧
      (g.vblank_tick 456).1.stat.mode = GpuMode.OamSearch ∧
      (g.vblank_tick 456).2 = 0) := by
  refine ⟨?_, ?_, ?_⟩
  · rintro ⟨ha, hb⟩
    have hmod : (g.position.ly + 1) % 256 = g.position.ly + 1 :=
      Nat.mod_eq_of_lt (by omega)
    unfold Gpu.vblank_tick
    rw [if_pos (by omega)]
    dsimp only
    rw [hmod]
    rw [if_neg (show ¬(g.position.ly + 1 = 153) by omega)]
    dsimp only
    rw [if_neg (show ¬(g.position.ly + 1 = 1) by omega)]
    exact ⟨rfl, hvb, by omega⟩
  · intro h152
    have hmod : (g.position.ly + 1) % 256 = 153 := by
      rw [h152]
    unfold Gpu.vblank_tick
    rw [if_pos (by omega)]
    dsimp only
    rw [hmod]
    rw [if_pos rfl]
    split
    · rename_i hly1
      rw [(check_coincidence_fields _).2.2.2.2] at hly1
      simp at hly1
    · refine ⟨?_, ?_, ?_, ?_, ?_⟩
      · rw [(check_coincidence_fields _).2.2.2.2]
      · rw [(check_coincidence_fields _).2.1]
        exact hvb
      · intro hlyc
        exact ((check_coincidence_spec _).1 hlyc.symm).1
      · intro hlyc hint
        exact ((check_coincidence_spec _).1 hlyc.symm).2.1 hint
      · intro hlyc
        unfold Gpu.check_coincidence
        dsimp only
        rw [if_neg (show ¬((0 : Nat) = g.position.lyc) from fun h => hlyc h.symm)]
        exact ⟨rfl, rfl⟩
  · intro h0
    have hmod : (g.position.ly + 1) % 256 = 1 := by
      rw [h0]
    unfold Gpu.vblank_tick
    rw [if_pos (by omega)]
    dsimp only
    rw [hmod]
    rw [if_neg (show ¬((1 : Nat) = 153) by omega)]
    dsimp only
    rw [if_pos rfl]
    refine ⟨?_, (change_mode_fields _ GpuMode.OamSearch).2.1, by omega⟩
    rw [(change_mode_fields _ GpuMode.OamSearch).2.2.2.2]

/-- Witness for C4: the concrete VBlank state on line 149 advances to 150. -/
theorem vblank_line_counter_quirk_witness :
    vblankState.stat.mode = GpuMode.VBlank ∧ vblankState.clock = 0 ∧
    (vblankState.vblank_tick 456).1.position.ly = vblankState.position.ly + 1 :=
  ⟨rfl, rfl,
    ((vblank_line_counter_quirk vblankState rfl rfl).1 (by decide)).1⟩

set_option maxRecDepth 100000

/-- C1 (refuted as stated — mod.rs never initializes the FIFO's per-line
discard counter `scx` from scroll-x, so no pixels are ever discarded and no
cycles are ever borrowed): starting a line with `scroll_x = 3` and the
display on, after the 80-cycle Search the discard counter is 0, not 3; the
Transfer phase takes exactly 174 cycles (still mid-Transfer after 173); the
line's borrowed-cycle total ends at 0, not 3, so HBlank consumes the full
204 cycles (still running at 203, line finished exactly at 204 with the
counter stepping to line 1) — Search+Transfer+HBlank is 80+174+204 = 458,
not 456. -/
theorem line_discard_counter_never_set :
    (afterSearch 3).stat.mode = GpuMode.PixelTransfer ∧
    (afterSearch 3).bg_fifo.scx = 0 ∧
    (afterSearch 3).borrowed_cycles = 0 ∧
    ((afterSearch 3).tick 173).stat.mode = GpuMode.PixelTransfer ∧
    (afterTransfer 3).stat.mode = GpuMode.HBlank ∧
    (afterTransfer 3).borrowed_cycles = 0 ∧
    (afterTransfer 3).position.lx = 160 ∧
    ((afterTransfer 3).tick 203).stat.mode = GpuMode.HBlank ∧
    (afterLine 3).stat.mode = GpuMode.OamSearch ∧
    (afterLine 3).position.ly = 1 ∧
    80 + 174 + 204 = 458 := by
  decide

/-- C3 (refuted as stated — mod.rs never resets the pixel cursor `lx`, so
only the very first Transfer of the machine's life begins with cursor 0):
the first entry into Transfer has cursor 0, but after one full line, the
next entry into Transfer (line 1, fresh 80-cycle Search) finds the cursor
still at 160. -/
theorem transfer_entry_pixel_cursor_not_reset :
    (afterSearch 0).stat.mode = GpuMode.PixelTransfer ∧
    (afterSearch 0).position.lx = 0 ∧
    (afterLine 0).stat.mode = GpuMode.OamSearch ∧
    (afterLine 0).position.ly = 1 ∧
    ((afterLine 0).tick 80).stat.mode = GpuMode.PixelTransfer ∧
    ((afterLine 0).tick 80).position.lx = 160 := by
  decide

/-- C5 (refuted as stated — `Gpu::vblank_tick` performs no coincidence
check on an ordinary VBlank line increment, only in the line-153 special
branch): in VBlank on line 149 with compare target 150 and the
coincidence-interrupt enable set, a full 456-cycle period advances the line
to 150 yet raises no status interrupt and leaves the coincidence flag
clear, while the same increment performed by `Gpu::hblank_tick` (line 99 →
100, same compare setup) does raise the status interrupt. -/
theorem vblank_increment_skips_coincidence_check :
    vblankState.position.lyc = 150 ∧
    vblankState.stat.lyc_int ≠ 0 ∧
    vblankState.request_lcd_int = false ∧
    (vblankState.tick 456).position.ly = 150 ∧
    (vblankState.tick 456).request_lcd_int = false ∧
    (vblankState.tick 456).stat.coincident = 0 ∧
    (hblankCmpState.tick 204).position.ly = 100 ∧
    (hblankCmpState.tick 204).request_lcd_int = true := by
  decide

end Gbemu
